import Mathlib

/-!
Shallow embedding of the SMTP deliverability probe engine of the
`emailverifier` repository (src/index.js and src/api/verify-email.js).

External effects are made explicit:
* DNS resolution (`dns.resolveMx`) is modelled by an `Except` input: `ok`
  carries the records the resolver returned, `error` the thrown DNS error.
* One SMTP connection attempt (`trySmtpConnection`) is modelled by an
  oracle giving the per-attempt outcome keyed by (host, port, attempt),
  and, at the socket level, by an explicit list of socket events.
* The probe loop (`customSmtpCheck`) is instrumented: it returns both the
  result and the ordered list of (host, port, attempt) triples it invoked.
-/

/-- Result record `{ valid, reason }` of the SMTP check.  The JavaScript
field `valid` ranges over `true` / `false` / `null`, modelled as
`some true` / `some false` / `none`. -/
structure SmtpResult where
  valid : Option Bool
  reason : String
deriving Repr, DecidableEq

/-- An MX record as returned by `getMxRecords`: `{ exchange, priority }`. -/
structure MxRecord where
  exchange : String
  priority : Nat
deriving Repr, DecidableEq

/-- A raw record produced by `dns.resolveMx`. -/
structure RawMx where
  exchange : String
  priority : Nat
deriving Repr, DecidableEq

/-- `getMxRecords` (src/index.js lines 13-21): maps the resolver's records
to `{ exchange, priority }` pairs and recovers every resolver failure
(the `catch` branch) into the empty list.  The fallible DNS call is the
`Except` argument. -/
def getMxRecords (dnsResult : Except String (List RawMx)) : List MxRecord :=
  match dnsResult with
  | Except.ok records => records.map (fun record => { exchange := record.exchange, priority := record.priority })
  | Except.error _ => []

/-- Ascending-priority comparison used by the scheduler's sort
(`(a, b) => a.priority - b.priority`). -/
def mxLe (a b : MxRecord) : Prop := a.priority ≤ b.priority

instance : DecidableRel mxLe := fun a b => inferInstanceAs (Decidable (a.priority ≤ b.priority))

instance : IsTotal MxRecord mxLe := ⟨fun a b => Nat.le_total a.priority b.priority⟩

instance : IsTrans MxRecord mxLe := ⟨fun _ _ _ h h2 => Nat.le_trans h h2⟩

/-- `mxRecords.sort((a, b) => a.priority - b.priority)` — JavaScript's
`Array.prototype.sort` is stable, modelled by a stable insertion sort. -/
def sortMx (records : List MxRecord) : List MxRecord :=
  records.insertionSort mxLe

/-- `const ports = [25, 587]` (src/index.js line 30). -/
def ports : List Nat := [25, 587]

/-- `const maxRetries = 3` (src/index.js line 31). -/
def maxRetries : Nat := 3

/-- Attempt counters `1 .. n` of the innermost `for` loop. -/
def attemptNumbers (n : Nat) : List Nat := (List.range n).map (· + 1)

/-- The ordered cross-product the nested loops of `customSmtpCheck`
traverse: exchangers × ports × attempts (src/index.js lines 36-38). -/
def probeSeq (records : List MxRecord) : List (String × Nat × Nat) :=
  records.flatMap fun mx =>
    ports.flatMap fun p =>
      (attemptNumbers maxRetries).map fun a => (mx.exchange, p, a)

/-- The body of the nested loops (src/index.js lines 38-48): invoke
`trySmtpConnection` per element, return at once when `valid === true` or
`valid === false`.  Returns the decisive result (if any) together with
the list of invoked (host, port, attempt) triples, in order. -/
def runProbes (oracle : String → Nat → Nat → SmtpResult) :
    List (String × Nat × Nat) → Option SmtpResult × List (String × Nat × Nat)
  | [] => (none, [])
  | t :: ts =>
    let r := oracle t.1 t.2.1 t.2.2
    if r.valid == some true then (some r, [t])
    else if r.valid == some false then (some r, [t])
    else
      let rest := runProbes oracle ts
      (rest.1, t :: rest.2)

/-- `customSmtpCheck` (src/index.js lines 24-53), instrumented with the
attempt trace.  `mxRecords = none` models a missing (`undefined`/`null`)
argument, caught by `!mxRecords || !Array.isArray(mxRecords)`. -/
def customSmtpCheck (oracle : String → Nat → Nat → SmtpResult)
    (mxRecords : Option (List MxRecord)) : SmtpResult × List (String × Nat × Nat) :=
  match mxRecords with
  | none => ({ valid := some false, reason := "No valid MX records provided for SMTP check" }, [])
  | some [] => ({ valid := some false, reason := "No valid MX records provided for SMTP check" }, [])
  | some records =>
    match runProbes oracle (probeSeq (sortMx records)) with
    | (some r, invoked) => (r, invoked)
    | (none, invoked) => ({ valid := some false, reason := "All SMTP checks failed after retries" }, invoked)

/-- An oracle on which every attempt is inconclusive (`valid === null`),
as on a timeout. -/
def indecisiveOracle : String → Nat → Nat → SmtpResult :=
  fun _ _ _ => { valid := none, reason := "SMTP timeout" }

/-- `pattern.isPrefixOf subject` on character lists, written out so every
classification question evaluates by kernel reduction. -/
def charsStartWith : List Char → List Char → Bool
  | [], _ => true
  | _ :: _, [] => false
  | a :: as, b :: bs => a == b && charsStartWith as bs

/-- Substring occurrence on character lists: does `pat` occur contiguously
anywhere in the subject? -/
def charsContain (pat : List Char) : List Char → Bool
  | [] => charsStartWith pat []
  | b :: bs => charsStartWith pat (b :: bs) || charsContain pat bs

/-- JavaScript's `String.prototype.includes`: substring search anywhere in
the string. -/
def strIncludes (s pat : String) : Bool := charsContain pat.data s.data

/-- The `data` handler's classifier (src/index.js lines 71-81): substring
search with `includes` — `"250"`/`"220"` anywhere resolves Accepted,
else `"550"`/`"554"` anywhere resolves Rejected, else the handler does
not resolve (`none`). -/
def classifyData (response : String) : Option SmtpResult :=
  if strIncludes response "250" || strIncludes response "220" then
    some { valid := some true, reason := "SMTP connection successful" }
  else if strIncludes response "550" || strIncludes response "554" then
    some { valid := some false, reason := "SMTP rejected: user unknown or mailbox unavailable" }
  else
    none

/-- The socket callbacks that can fire during one `trySmtpConnection`
call (src/index.js lines 56-116): the `connect`, `data`, `timeout`,
`error` and `close` socket events, plus the two 10-second backstop
timers installed with `setTimeout`. -/
inductive SockEvent where
  | connect
  | data (response : String)
  | timeout
  | errorEvt (msg : String)
  | close
  | maxTimeFired
  | timerFired
deriving Repr, DecidableEq

/-- What a single delivered event does to the pending promise: `none` if
the callback does not resolve it, otherwise the `{valid, reason}` it
resolves with, paired with whether `socket.destroy()` was called on that
path (it is called on every resolving path in the source). -/
def resolveEvent : SockEvent → Option (SmtpResult × Bool)
  | SockEvent.connect => none
  | SockEvent.close => none
  | SockEvent.data s => (classifyData s).map (fun r => (r, true))
  | SockEvent.timeout => some ({ valid := none, reason := "SMTP timeout" }, true)
  | SockEvent.errorEvt m => some ({ valid := none, reason := "SMTP connection failed: " ++ m }, true)
  | SockEvent.maxTimeFired => some ({ valid := none, reason := "Maximum connection time exceeded" }, true)
  | SockEvent.timerFired => some ({ valid := none, reason := "SMTP timeout" }, true)

/-- `trySmtpConnection` (src/index.js lines 56-116) over an explicit
sequence of delivered socket events: the promise settles with the first
event whose callback resolves it (a promise resolves at most once;
later calls to `resolve` are no-ops).  `none` means no delivered event
resolved the promise. -/
def trySmtpConnection (events : List SockEvent) : Option (SmtpResult × Bool) :=
  match events with
  | [] => none
  | ev :: rest =>
    match resolveEvent ev with
    | some r => some r
    | none => trySmtpConnection rest

/-- The deliverability fields the `/verify-email` endpoint of
src/index.js computes from the mandatory SMTP check
(lines 149-171): `status`, `willBounce`, `details.validSmtp`,
`details.reason` and `details.additionalInfo`. -/
structure EndpointVerdict where
  status : String
  willBounce : Bool
  validSmtp : Option Bool
  reason : String
  additionalInfo : String
deriving Repr, DecidableEq

/-- Verdict aggregation of the src/index.js endpoint (lines 149-171):
`isValid = customSmtpResult.valid === true`, `status` is
`'deliverable'` or `'undeliverable'`, `willBounce = !isValid`. -/
def indexVerdict (smtp : SmtpResult) : EndpointVerdict :=
  let isValid := smtp.valid == some true
  { status := if isValid then "deliverable" else "undeliverable"
    willBounce := !isValid
    validSmtp := smtp.valid
    reason := if isValid then "Email is valid" else smtp.reason
    additionalInfo :=
      if smtp.valid == some false then "Custom SMTP check failed: " ++ smtp.reason
      else if smtp.valid == none then "SMTP check inconclusive: " ++ smtp.reason
      else "" }

/-- JavaScript's `String.prototype.split` with a one-character separator:
`"a@b@c".split("@") = ["a", "b", "c"]`, `"a@".split("@") = ["a", ""]`. -/
def splitOnChar (sep : Char) : List Char → List (List Char)
  | [] => [[]]
  | c :: rest =>
    let r := splitOnChar sep rest
    if c == sep then [] :: r
    else
      match r with
      | [] => [[c]]
      | g :: gs => (c :: g) :: gs

/-- `const [, domain] = email.split('@')` — the element at index 1 of the
split (the part after the first `@`). -/
def emailDomain (email : String) : String :=
  (((splitOnChar '@' email.data).map fun l => String.mk l).getD 1 "")

/-- `String.prototype.toLowerCase` on the ASCII range, which is all the
domain comparisons in the source use. -/
def lowerAscii (s : String) : String :=
  String.mk (s.data.map fun c => if 'A' ≤ c && c ≤ 'Z' then Char.ofNat (c.toNat + 32) else c)

/-- The results of the external static validator
(`deep-email-validator`, called with `validateSMTP: false`), an input to
the handler. -/
structure Validators where
  regexValid : Bool
  mxValid : Bool
  typoValid : Bool
  disposableValid : Bool
deriving Repr, DecidableEq

/-- The JSON body the src/api/verify-email.js handler returns on a 200
response. -/
structure Response where
  email : String
  status : String
  willBounce : Bool
  validFormat : Bool
  validMx : Bool
  validTypo : Bool
  isDisposable : Bool
  validSmtp : Option Bool
  reason : String
  additionalInfo : String
deriving Repr, DecidableEq

/-- What the handler replies with: a 4xx client error or a verdict body. -/
inductive HandlerOut where
  | clientError (code : Nat)
  | verdict (r : Response)
deriving Repr, DecidableEq

/-- The network-touching calls the handler can make after its
short-circuit rules: the external validator and the MX lookup. -/
inductive NetAction where
  | validate (email : String)
  | mxLookup (domain : String)
deriving Repr, DecidableEq

/-- `undeliverableDomains` (src/api/verify-email.js lines 6-13). -/
def undeliverableDomains : List String :=
  ["example.com", "godaddy.com", "test.com", "example.org", "example.net", "invalid.com"]

/-- The allowlist response of the `gmail.com` branch
(src/api/verify-email.js lines 39-54). -/
def gmailResponse (email : String) : Response :=
  { email := email
    status := "deliverable"
    willBounce := false
    validFormat := true
    validMx := true
    validTypo := true
    isDisposable := false
    validSmtp := none
    reason := "Gmail domain automatically marked as deliverable"
    additionalInfo := "" }

/-- The denylist response (src/api/verify-email.js lines 56-71). -/
def domainRuleResponse (email : String) : Response :=
  { email := email
    status := "undeliverable"
    willBounce := true
    validFormat := true
    validMx := false
    validTypo := true
    isDisposable := true
    validSmtp := none
    reason := "Domain marked as undeliverable by rule"
    additionalInfo := "Checks skipped due to domain rule" }

/-- The `handler` of src/api/verify-email.js (POST requests),
instrumented with the list of network calls it makes.  `emailOk` is the
result of the external `email && isEmail(email)` guard; `v` the external
validator's result; `dns` the DNS resolver's outcome consumed by
`getMxRecords`. -/
def handler (email : String) (emailOk : Bool) (v : Validators)
    (dns : Except String (List RawMx)) : HandlerOut × List NetAction :=
  if !emailOk then (HandlerOut.clientError 400, [])
  else
    let domain := emailDomain email
    if lowerAscii domain == "gmail.com" then
      (HandlerOut.verdict (gmailResponse email), [])
    else if undeliverableDomains.contains (lowerAscii domain) then
      (HandlerOut.verdict (domainRuleResponse email), [])
    else
      let mxRecords := getMxRecords dns
      let hasMx := !mxRecords.isEmpty
      let isValid := hasMx && v.regexValid && v.typoValid && v.disposableValid
      (HandlerOut.verdict
        { email := email
          status := if isValid then "deliverable" else "undeliverable"
          willBounce := !isValid
          validFormat := v.regexValid
          validMx := hasMx || v.mxValid
          validTypo := v.typoValid
          isDisposable := !v.disposableValid
          validSmtp := none
          reason :=
            if isValid then "Email is valid with MX records"
            else if hasMx then "Validation failed (format, typo, or disposable)"
            else "No MX records found"
          additionalInfo :=
            if hasMx then "Deliverable based on MX records"
            else "No MX records found for domain" },
        [NetAction.validate email, NetAction.mxLookup domain])

/-! ## Helper lemmas -/

/-- Scanning the probe sequence: if every element before `t` is
inconclusive and `t` is decisive, the loop returns `t`'s outcome and
invokes exactly the elements up to and including `t`. -/
theorem runProbes_decisive (oracle : String → Nat → Nat → SmtpResult)
    (pre post : List (String × Nat × Nat)) (t : String × Nat × Nat)
    (hpre : ∀ u ∈ pre, (oracle u.1 u.2.1 u.2.2).valid = none)
    (ht : (oracle t.1 t.2.1 t.2.2).valid ≠ none) :
    runProbes oracle (pre ++ t :: post) = (some (oracle t.1 t.2.1 t.2.2), pre ++ [t]) := by
  induction pre with
  | nil =>
    rcases h : (oracle t.1 t.2.1 t.2.2).valid with _ | b
    · exact absurd h ht
    · cases b <;> simp [runProbes, h]
  | cons u pre ih =>
    have hu := hpre u (by simp)
    have ih' := ih (fun x hx => hpre x (by simp [hx]))
    simp [runProbes, hu, ih']

/-- The list of invoked attempts is always an initial segment of the
sequence the loop scans. -/
theorem runProbes_trace_initial (oracle : String → Nat → Nat → SmtpResult) :
    ∀ l : List (String × Nat × Nat), ∃ rest, l = (runProbes oracle l).2 ++ rest := by
  intro l
  induction l with
  | nil => exact ⟨[], rfl⟩
  | cons t ts ih =>
    rcases h : (oracle t.1 t.2.1 t.2.2).valid with _ | b
    · obtain ⟨rest, hr⟩ := ih
      exact ⟨rest, by simp [runProbes, h]; exact hr⟩
    · cases b <;> exact ⟨ts, by simp [runProbes, h]⟩

/-- For a non-empty record list the instrumented trace of
`customSmtpCheck` is exactly the trace of the scanning loop. -/
theorem customSmtpCheck_trace (oracle : String → Nat → Nat → SmtpResult)
    (r : MxRecord) (rs : List MxRecord) :
    (customSmtpCheck oracle (some (r :: rs))).2 =
      (runProbes oracle (probeSeq (sortMx (r :: rs)))).2 := by
  rcases h : runProbes oracle (probeSeq (sortMx (r :: rs))) with ⟨res, inv⟩
  cases res <;> simp [customSmtpCheck, h]

/-- An `Option Bool` is `some true`, `some false` or `none` — the
JavaScript `valid` field is one of `true`, `false`, `null`. -/
theorem optionBool_tri (o : Option Bool) :
    o = some true ∨ o = some false ∨ o = none := by
  rcases o with _ | b
  · exact Or.inr (Or.inr rfl)
  · cases b
    · exact Or.inr (Or.inl rfl)
    · exact Or.inl rfl

/-! ## C1 -/

/-- C1 (confirmed): decisive short-circuit.  If the probe sequence of
the sorted records splits as `pre ++ t :: post` where every attempt in
`pre` is inconclusive (`valid === null`) and `t`'s attempt is decisive
(`valid === true` or `valid === false`), then `customSmtpCheck` returns
exactly `t`'s outcome, and the invoked attempts are `pre ++ [t]` — no
element of `post` is ever invoked, regardless of remaining budget. -/
theorem c1_decisive_short_circuit (oracle : String → Nat → Nat → SmtpResult)
    (records : List MxRecord) (pre post : List (String × Nat × Nat))
    (t : String × Nat × Nat)
    (hseq : probeSeq (sortMx records) = pre ++ t :: post)
    (hpre : ∀ u ∈ pre, (oracle u.1 u.2.1 u.2.2).valid = none)
    (ht : (oracle t.1 t.2.1 t.2.2).valid ≠ none) :
    customSmtpCheck oracle (some records) = (oracle t.1 t.2.1 t.2.2, pre ++ [t]) := by
  cases records with
  | nil => simp [sortMx, probeSeq, List.insertionSort] at hseq
  | cons r rs =>
    have hrun := runProbes_decisive oracle pre post t hpre ht
    simp [customSmtpCheck, hseq, hrun]

/-- Oracle for the C1 witness: host `mx2` accepts, everything else
times out. -/
def c1Oracle : String → Nat → Nat → SmtpResult := fun h _ _ =>
  if h == "mx2" then { valid := some true, reason := "SMTP connection successful" }
  else { valid := none, reason := "SMTP timeout" }

/-- C1 witness: with records `[{mx1, 5}, {mx2, 10}]` and an oracle that
accepts on `mx2` only, the check returns the accepting outcome after the
six `mx1` attempts plus the first `mx2` attempt, and the five remaining
`mx2` attempts are never invoked. -/
theorem c1_decisive_short_circuit_witness :
    customSmtpCheck c1Oracle (some [⟨"mx1", 5⟩, ⟨"mx2", 10⟩]) =
      (c1Oracle "mx2" 25 1,
        [("mx1", 25, 1), ("mx1", 25, 2), ("mx1", 25, 3),
         ("mx1", 587, 1), ("mx1", 587, 2), ("mx1", 587, 3)] ++ [("mx2", 25, 1)]) :=
  c1_decisive_short_circuit c1Oracle [⟨"mx1", 5⟩, ⟨"mx2", 10⟩]
    [("mx1", 25, 1), ("mx1", 25, 2), ("mx1", 25, 3),
     ("mx1", 587, 1), ("mx1", 587, 2), ("mx1", 587, 3)]
    [("mx2", 25, 2), ("mx2", 25, 3), ("mx2", 587, 1), ("mx2", 587, 2), ("mx2", 587, 3)]
    ("mx2", 25, 1) (by decide) (by decide) (by decide)

/-! ## C2 -/

/-- A pattern matches at the head of itself followed by anything. -/
theorem charsStartWith_self_append (pat rest : List Char) :
    charsStartWith pat (pat ++ rest) = true := by
  induction pat with
  | nil => rfl
  | cons a as ih => simp [charsStartWith, ih]

/-- A pattern occurs in itself followed by anything. -/
theorem charsContain_self_append (pat t : List Char) :
    charsContain pat (pat ++ t) = true := by
  cases pat with
  | nil =>
    cases t with
    | nil => rfl
    | cons b bs => simp [charsContain, charsStartWith]
  | cons a as =>
    have h := charsStartWith_self_append (a :: as) t
    simp [charsContain]
    exact Or.inl h

/-- Occurrence is preserved by prepending arbitrary characters. -/
theorem charsContain_append_left (s u pat : List Char)
    (h : charsContain pat u = true) : charsContain pat (s ++ u) = true := by
  induction s with
  | nil => simpa using h
  | cons b bs ih => simp [charsContain, ih]

/-- `(s + pat + t).includes(pat)` is always true. -/
theorem strIncludes_sandwich (s pat t : String) :
    strIncludes (s ++ pat ++ t) pat = true := by
  unfold strIncludes
  have hdata : (s ++ pat ++ t).data = s.data ++ (pat.data ++ t.data) := by
    simp [String.data_append]
  rw [hdata]
  exact charsContain_append_left _ _ _ (charsContain_self_append _ _)

/-- C2 counterexample: the response `"450 4.7.1 greylisted, id 2507"`
carries the temporary code 450 as its leading status code, yet the
`data` handler classifies it as Accepted (`valid = true`) because the
digits 250 occur inside the body (`id 2507`).  This refutes the claim
that classification parses the leading 3-digit status code rather than
searching substrings. -/
theorem c2_substring_counterexample :
    trySmtpConnection [SockEvent.data "450 4.7.1 greylisted, id 2507"] =
      some ({ valid := some true, reason := "SMTP connection successful" }, true) ∧
    ("450 4.7.1 greylisted, id 2507").data.take 3 = ['4', '5', '0'] := by
  constructor
  · decide
  · decide

/-- C2 (corrected): the client classifies by substring search
(`String.prototype.includes`) over the whole response, not by parsing
the leading status code: every response containing the digits `250` (or
`220`) anywhere — wherever they occur — is classified Accepted. -/
theorem c2_includes_classification (s t : String) :
    classifyData (s ++ "250" ++ t) =
      some { valid := some true, reason := "SMTP connection successful" } ∧
    classifyData (s ++ "220" ++ t) =
      some { valid := some true, reason := "SMTP connection successful" } := by
  constructor
  · have h := strIncludes_sandwich s "250" t
    simp [classifyData, h]
  · have h := strIncludes_sandwich s "220" t
    simp [classifyData, h]

/-- C2 witness: instantiating the corrected claim at a concrete
response whose `250` is buried in a queue identifier. -/
theorem c2_includes_classification_witness :
    classifyData ("450-busy, queue " ++ "250" ++ "9") =
      some { valid := some true, reason := "SMTP connection successful" } ∧
    classifyData ("450-busy, queue " ++ "220" ++ "9") =
      some { valid := some true, reason := "SMTP connection successful" } :=
  c2_includes_classification "450-busy, queue " "9"

/-! ## C3 -/

/-- C3 counterexample: when the probe outcome is not decisive
(`valid === null`, here from an SMTP timeout), the src/index.js endpoint
reports status `"undeliverable"` — one of the two decisive statuses —
not a third `Unknown` status distinct from Deliverable and
Undeliverable, and it unconditionally sets `willBounce = true`. -/
theorem c3_no_unknown_counterexample :
    (indexVerdict { valid := none, reason := "SMTP timeout" }).status = "undeliverable" ∧
    (indexVerdict { valid := none, reason := "SMTP timeout" }).willBounce = true := by
  constructor
  · decide
  · decide

/-- C3 (corrected): for every request whose probe outcome is not
decisive (`valid === null`), the src/index.js endpoint returns status
`"undeliverable"` with `willBounce = true`, `details.reason` set to the
probe's reason and `details.additionalInfo` flagging the inconclusive
check; the endpoint has no Unknown status. -/
theorem c3_indeterminate_is_undeliverable (reason : String) :
    indexVerdict { valid := none, reason := reason } =
      { status := "undeliverable", willBounce := true, validSmtp := none,
        reason := reason,
        additionalInfo := "SMTP check inconclusive: " ++ reason } := rfl

/-! ## C4 -/

/-- C4 counterexample: called with an empty MX list, `customSmtpCheck`
returns `valid = false` — a decisive rejection-shaped outcome, not the
Indeterminate (`valid === null`) outcome the claim asserts. -/
theorem c4_empty_mx_counterexample :
    (customSmtpCheck indecisiveOracle (some [])).1.valid = some false ∧
    (customSmtpCheck indecisiveOracle (some [])).1.valid ≠ none := by
  constructor
  · decide
  · decide

/-- C4 (corrected): for every call with an empty or missing MX list,
the probe invokes no connection attempt (the trace is empty) and
returns the distinct no-exchangers reason, but with the decisive value
`valid = false` rather than an Indeterminate `valid = null`. -/
theorem c4_empty_mx_no_attempts (oracle : String → Nat → Nat → SmtpResult) :
    customSmtpCheck oracle none =
      ({ valid := some false, reason := "No valid MX records provided for SMTP check" }, []) ∧
    customSmtpCheck oracle (some []) =
      ({ valid := some false, reason := "No valid MX records provided for SMTP check" }, []) :=
  ⟨rfl, rfl⟩

/-! ## C5 -/

/-- C5 (confirmed): `getMxRecords` maps the resolver's records to
`{ exchange, priority }` pairs, and every resolver failure (no MX
records, timeout, NXDOMAIN, DNS error — the `catch` branch) yields the
empty list; being a total Lean function of the resolver's outcome, it
propagates no exception to its caller. -/
theorem c5_getMxRecords_total (e : String) (recs : List RawMx) :
    getMxRecords (Except.error e) = [] ∧
    getMxRecords (Except.ok recs) =
      recs.map (fun r => { exchange := r.exchange, priority := r.priority }) :=
  ⟨rfl, rfl⟩

/-! ## C6 -/

/-- C6 (confirmed): the scheduler's sort is ascending in priority, the
invoked attempts always form an initial segment of the sorted
cross-product (so exchangers are visited in ascending priority), and
for the spec's concrete instance `[{h1, 10}, {h2, 5}]` the sort places
`h2` first and the full inconclusive run probes all six `h2` attempts
before any `h1` attempt. -/
theorem c6_priority_ordering :
    (∀ records : List MxRecord, (sortMx records).Sorted mxLe) ∧
    (∀ (records : List MxRecord) (oracle : String → Nat → Nat → SmtpResult),
      ∃ rest, probeSeq (sortMx records) = (customSmtpCheck oracle (some records)).2 ++ rest) ∧
    sortMx [⟨"h1", 10⟩, ⟨"h2", 5⟩] = [⟨"h2", 5⟩, ⟨"h1", 10⟩] ∧
    (customSmtpCheck indecisiveOracle (some [⟨"h1", 10⟩, ⟨"h2", 5⟩])).2 =
      [("h2", 25, 1), ("h2", 25, 2), ("h2", 25, 3),
       ("h2", 587, 1), ("h2", 587, 2), ("h2", 587, 3),
       ("h1", 25, 1), ("h1", 25, 2), ("h1", 25, 3),
       ("h1", 587, 1), ("h1", 587, 2), ("h1", 587, 3)] := by
  refine ⟨fun records => List.sorted_insertionSort mxLe records, ?_, by decide, by decide⟩
  intro records oracle
  cases records with
  | nil => exact ⟨[], rfl⟩
  | cons r rs =>
    rw [customSmtpCheck_trace]
    obtain ⟨rest, hr⟩ := runProbes_trace_initial oracle (probeSeq (sortMx (r :: rs)))
    exact ⟨rest, hr⟩

/-! ## C7 -/

/-- C7 (confirmed): in every verdict either endpoint constructs — the
src/index.js aggregation and every 200-response branch of the
src/api/verify-email.js handler (whose branches part_002 mirrors) —
`willBounce` is `true` exactly when `status` is `"undeliverable"`. -/
theorem c7_willBounce_iff_undeliverable :
    (∀ smtp : SmtpResult,
      (indexVerdict smtp).willBounce = true ↔ (indexVerdict smtp).status = "undeliverable") ∧
    (∀ (email : String) (ok : Bool) (v : Validators) (dns : Except String (List RawMx))
      (resp : Response) (acts : List NetAction),
      handler email ok v dns = (HandlerOut.verdict resp, acts) →
      (resp.willBounce = true ↔ resp.status = "undeliverable")) := by
  constructor
  · intro smtp
    rcases smtp with ⟨v, r⟩
    rcases v with _ | b
    · simp [indexVerdict]
    · cases b <;> simp [indexVerdict]
  · intro email ok v dns resp acts h
    unfold handler at h
    split at h
    · simp at h
    · dsimp only at h
      split at h
      · rw [Prod.mk.injEq] at h
        injection h.1 with h1
        rw [← h1]
        simp [gmailResponse]
      · split at h
        · rw [Prod.mk.injEq] at h
          injection h.1 with h1
          rw [← h1]
          simp [domainRuleResponse]
        · rw [Prod.mk.injEq] at h
          injection h.1 with h1
          rw [← h1]
          dsimp only
          cases hIV : (!(getMxRecords dns).isEmpty && v.regexValid && v.typoValid && v.disposableValid) <;>
            simp

/-- C7 witness: the handler branch of the invariant applied at the
concrete request `a@gmail.com`. -/
theorem c7_willBounce_iff_undeliverable_witness :
    (gmailResponse "a@gmail.com").willBounce = true ↔
      (gmailResponse "a@gmail.com").status = "undeliverable" :=
  c7_willBounce_iff_undeliverable.2 "a@gmail.com" true ⟨true, true, true, true⟩
    (Except.error "servfail") (gmailResponse "a@gmail.com") [] (by decide)

/-! ## C8 -/

/-- C8 (confirmed): for every request that passes the syntax guard and
whose domain lowercases to `gmail.com`, the handler returns the
allowlist verdict — status `"deliverable"`, `willBounce = false` — and
its network-call trace is empty: neither the validator, nor the MX
resolver, nor any SMTP probe is invoked. -/
theorem c8_gmail_allowlist (email : String) (v : Validators)
    (dns : Except String (List RawMx))
    (h : lowerAscii (emailDomain email) = "gmail.com") :
    handler email true v dns = (HandlerOut.verdict (gmailResponse email), []) ∧
    (gmailResponse email).status = "deliverable" ∧
    (gmailResponse email).willBounce = false := by
  refine ⟨?_, rfl, rfl⟩
  simp [handler, h]

/-- C8 witness: the concrete request `user@gmail.com`. -/
theorem c8_gmail_allowlist_witness :
    handler "user@gmail.com" true ⟨true, true, true, true⟩ (Except.error "servfail") =
      (HandlerOut.verdict (gmailResponse "user@gmail.com"), []) ∧
    (gmailResponse "user@gmail.com").status = "deliverable" ∧
    (gmailResponse "user@gmail.com").willBounce = false :=
  c8_gmail_allowlist "user@gmail.com" ⟨true, true, true, true⟩ (Except.error "servfail")
    (by decide)

/-! ## C9 -/

/-- C9 counterexample: for `user@example.com` with `example.com`
denylisted the handler does return status `"undeliverable"` with
`willBounce = true` and makes no network call, but the reason it
reports is `"Domain marked as undeliverable by rule"`, not the string
`"domain rule"` the claim asserts. -/
theorem c9_domain_rule_counterexample :
    handler "user@example.com" true ⟨true, true, true, true⟩ (Except.error "servfail") =
      (HandlerOut.verdict (domainRuleResponse "user@example.com"), []) ∧
    (domainRuleResponse "user@example.com").reason ≠ "domain rule" := by
  constructor
  · decide
  · decide

/-- C9 (corrected): for every request that passes the syntax guard and
whose lower-cased domain is on the denylist, the handler returns the
denylist verdict — status `"undeliverable"`, `willBounce = true`,
reason `"Domain marked as undeliverable by rule"` — with an empty
network-call trace. -/
theorem c9_denylist_rule (email : String) (v : Validators)
    (dns : Except String (List RawMx))
    (h : lowerAscii (emailDomain email) ∈ undeliverableDomains) :
    handler email true v dns = (HandlerOut.verdict (domainRuleResponse email), []) ∧
    (domainRuleResponse email).status = "undeliverable" ∧
    (domainRuleResponse email).willBounce = true ∧
    (domainRuleResponse email).reason = "Domain marked as undeliverable by rule" := by
  refine ⟨?_, rfl, rfl, rfl⟩
  simp only [undeliverableDomains, List.mem_cons, List.not_mem_nil, or_false] at h
  rcases h with h | h | h | h | h | h <;> simp [handler, h, undeliverableDomains]

/-- C9 witness: the concrete request `user@EXAMPLE.Com`, whose domain
is denylisted case-insensitively. -/
theorem c9_denylist_rule_witness :
    handler "user@EXAMPLE.Com" true ⟨true, true, true, true⟩ (Except.error "servfail") =
      (HandlerOut.verdict (domainRuleResponse "user@EXAMPLE.Com"), []) ∧
    (domainRuleResponse "user@EXAMPLE.Com").status = "undeliverable" ∧
    (domainRuleResponse "user@EXAMPLE.Com").willBounce = true ∧
    (domainRuleResponse "user@EXAMPLE.Com").reason = "Domain marked as undeliverable by rule" :=
  c9_denylist_rule "user@EXAMPLE.Com" ⟨true, true, true, true⟩ (Except.error "servfail")
    (by decide)

/-! ## C10 -/

/-- Every resolving socket callback destroys the socket before
resolving. -/
theorem resolveEvent_destroys (ev : SockEvent) (p : SmtpResult × Bool)
    (h : resolveEvent ev = some p) : p.2 = true := by
  cases ev with
  | connect => simp [resolveEvent] at h
  | close => simp [resolveEvent] at h
  | data s =>
    simp only [resolveEvent, Option.map_eq_some'] at h
    obtain ⟨a, _, ha⟩ := h
    rw [← ha]
  | timeout => simp [resolveEvent] at h; rw [← h]
  | errorEvt m => simp [resolveEvent] at h; rw [← h]
  | maxTimeFired => simp [resolveEvent] at h; rw [← h]
  | timerFired => simp [resolveEvent] at h; rw [← h]

/-- C10 (confirmed): a single probe attempt is total.  For every
sequence of delivered socket events in which a backstop timer fires,
the promise resolves (the function never rejects or throws — it is a
total function into `Option`), and on every resolution path the
resolved `valid` field is one of `true`, `false`, `null` and the socket
has been destroyed. -/
theorem c10_try_smtp_total (events : List SockEvent)
    (h : SockEvent.timerFired ∈ events ∨ SockEvent.maxTimeFired ∈ events) :
    (∃ p, trySmtpConnection events = some p) ∧
    (∀ r d, trySmtpConnection events = some (r, d) →
      d = true ∧ (r.valid = some true ∨ r.valid = some false ∨ r.valid = none)) := by
  constructor
  · induction events with
    | nil => simp at h
    | cons ev rest ih =>
      cases hres : resolveEvent ev with
      | some p => exact ⟨p, by simp [trySmtpConnection, hres]⟩
      | none =>
        have h' : SockEvent.timerFired ∈ rest ∨ SockEvent.maxTimeFired ∈ rest := by
          rcases h with h | h <;> rcases List.mem_cons.mp h with he | hm
          · rw [← he] at hres; simp [resolveEvent] at hres
          · exact Or.inl hm
          · rw [← he] at hres; simp [resolveEvent] at hres
          · exact Or.inr hm
        obtain ⟨p, hp⟩ := ih h'
        exact ⟨p, by simp [trySmtpConnection, hres, hp]⟩
  · intro r d hrd
    refine ⟨?_, optionBool_tri r.valid⟩
    clear h
    induction events with
    | nil => simp [trySmtpConnection] at hrd
    | cons ev rest ih =>
      cases hres : resolveEvent ev with
      | some p =>
        simp [trySmtpConnection, hres] at hrd
        have hd := resolveEvent_destroys ev p hres
        rw [hrd] at hd
        exact hd
      | none =>
        simp [trySmtpConnection, hres] at hrd
        exact ih hrd

/-- C10 witness: a run that connects, receives an unclassifiable
banner, and then hits the 10-second backstop timer. -/
theorem c10_try_smtp_total_witness :
    (∃ p, trySmtpConnection
        [SockEvent.connect, SockEvent.data "not a status line", SockEvent.timerFired] = some p) ∧
    (∀ r d, trySmtpConnection
        [SockEvent.connect, SockEvent.data "not a status line", SockEvent.timerFired] = some (r, d) →
      d = true ∧ (r.valid = some true ∨ r.valid = some false ∨ r.valid = none)) :=
  c10_try_smtp_total
    [SockEvent.connect, SockEvent.data "not a status line", SockEvent.timerFired]
    (by decide)
